import Mathlib

/-!
Verification of the reflection repository's core behavior: the model-provider
wrapper and three-stage chain-of-thought pipeline (cot_reflection_file.py),
the single-call pipeline with output fallback (cot_reflection_v1.py), the
snapshot store (db_utils.py), and the comparative evaluator
(cot_reflection_app_v1.py).  Python string operations (regex search for the
tag/score patterns, str.strip, str.startswith, str.split) are modelled as
executable functions over character lists.
-/

/-! ## Python-style string primitives -/

/-- Model of `pre` being a prefix of `l` (used by regex literal matching and
`str.startswith`). -/
def listStarts : List Char → List Char → Bool
  | [], _ => true
  | _ :: _, [] => false
  | p :: ps, c :: cs => p == c && listStarts ps cs

/-- Index of the first occurrence of `pat` in a list, as `re.search` of a
literal pattern finds its leftmost match. -/
def findSub (pat : List Char) : List Char → Option Nat
  | [] => if pat.isEmpty then some 0 else none
  | c :: cs => if listStarts pat (c :: cs) then some 0 else (findSub pat cs).map (· + 1)

/-- Python `str.startswith`. -/
def pyStartswith (s pre : String) : Bool := listStarts pre.data s.data

/-- Whitespace recognized by Python's `str.strip` and `\s` (ASCII subset). -/
def pyIsSpace (c : Char) : Bool :=
  c == ' ' || c == '\t' || c == '\n' || c == '\r' || c == '\x0b' || c == '\x0c'

def stripChars (l : List Char) : List Char :=
  ((l.dropWhile pyIsSpace).reverse.dropWhile pyIsSpace).reverse

/-- Python `str.strip()`. -/
def pyStrip (s : String) : String := ⟨stripChars s.data⟩

/-- Leftmost match of the DOTALL regex `open(.*?)close`: content between the
first occurrence of `openTag` and the first occurrence of `closeTag` after it. -/
def extractBetween (openTag closeTag : List Char) (s : List Char) : Option (List Char) :=
  match findSub openTag s with
  | none => none
  | some i =>
    let rest := s.drop (i + openTag.length)
    match findSub closeTag rest with
    | none => none
    | some j => some (rest.take j)

/-- Leftmost match of `open(.*?)(?:close|$)`: as above, but a missing close
tag matches to end of string. -/
def extractToCloseOrEnd (openTag closeTag : List Char) (s : List Char) : Option (List Char) :=
  match findSub openTag s with
  | none => none
  | some i =>
    let rest := s.drop (i + openTag.length)
    match findSub closeTag rest with
    | none => some rest
    | some j => some (rest.take j)

/-- First segment of Python `s.split(sep)[0]`. -/
def pySplitFirst (s sep : String) : String :=
  match findSub sep.data s.data with
  | some i => ⟨s.data.take i⟩
  | none => s

/-! ## cot_reflection_file.py -/

namespace CotFile

/-- One entry of the `AVAILABLE_MODELS` registry. -/
structure ModelConfig where
  provider : String
  model_id : String
  location : String
  temp_range : ℚ × ℚ
  top_p_range : ℚ × ℚ
deriving DecidableEq, Repr

/-- The static model registry from cot_reflection_file.py. -/
def AVAILABLE_MODELS : List (String × ModelConfig) :=
  [ ("Gemini 2.0 Flash",
      ⟨"vertex_ai", "vertex_ai/gemini-2.0-flash-001", "europe-west1", (0, 1), (0, 1)⟩),
    ("Claude 3.5 Sonnet",
      ⟨"vertex_ai", "vertex_ai/claude-3-5-sonnet-v2@20241022", "europe-west1", (0, 1), (0, 1)⟩),
    ("Llama 3.1 405B",
      ⟨"azure_ai", "azure_ai/llama-3-1-405b-instruct",
       "https://api-llama-3-1-405b-instruct-live-llsyids.eastus.models.ai.azure.com/", (0, 1), (0, 1)⟩),
    ("Llama 3.3 70B",
      ⟨"azure_ai", "azure_ai/llama-3-3-70b-instruct",
       "https://api-llama-3-3-70b-instruct-live-llsyids.eastus.models.ai.azure.com/", (0, 1), (0, 1)⟩),
    ("OpenAI gpt-4o",
      ⟨"azure_ai", "azure_ai/gpt-4o",
       "https://swedencentral.api.cognitive.microsoft.com/openai/deployments/gpt-4o/chat/completions?api-version=2024-08-01-preview", (0, 1), (0, 1)⟩),
    ("OpenAI gpt-o1",
      ⟨"azure_ai", "azure_ai/openai-o1-genaiteam-swec-live",
       "https://openai-genaiteam-swec-live.openai.azure.com", (0, 1), (0, 1)⟩),
    ("AI21 Jamba 1.5 Large",
      ⟨"azure_ai", "azure_ai/AI21-Jamba-1-5-Large",
       "https://AI21-Jamba-1-5-Large-hfrke.eastus.models.ai.azure.com/", (0, 1), (0, 1)⟩) ]

def lookupModel (name : String) : Option ModelConfig := AVAILABLE_MODELS.lookup name

/-- API keys from app_config.py (keyed by model id; note gpt-o1 and Jamba have
no entry). -/
def LLM_API_KEYS : List (String × String) :=
  [ ("azure_ai/llama-3-1-70b-instruct", "DM6Hk3tcc87Y0wJVu2rP0wSnPQl7hsiX"),
    ("azure_ai/llama-3-1-405b-instruct", "4zibPIJCvCg8dcXPTM5DaKPmUTM9dlbB"),
    ("azure_ai/llama-3-3-70b-instruct", "WHfCuNYnkphFAkH54h9b4g6OQLIXJom3"),
    ("azure_ai/gpt-4o", "1feef3866ab5485c910270d0ad659e93") ]

/-- The single uniform backend invocation shape: litellm `completion(...)`
with one user message, with either a vertex location or an azure key/base. -/
structure BackendCall where
  model : String
  message : String
  vertex_location : Option String
  api_key : Option String
  api_base : Option String
  temperature : ℚ
  top_p : ℚ

/-- Construction of the backend call in `get_model_response` after the
registry check: dispatch on `provider`; the azure branch looks up an API key
(`KeyError` message if absent), an unknown provider raises `ValueError`.
Caller-supplied `temperature` and `top_p` are passed through verbatim. -/
def mkCall (cfg : ModelConfig) (prompt : String) (temperature top_p : ℚ) :
    Except String BackendCall :=
  if cfg.provider = "vertex_ai" then
    .ok ⟨cfg.model_id, prompt, some cfg.location, none, none, temperature, top_p⟩
  else if cfg.provider = "azure_ai" then
    match LLM_API_KEYS.lookup cfg.model_id with
    | some key => .ok ⟨cfg.model_id, prompt, none, some key, some cfg.location, temperature, top_p⟩
    | none => .error ("\x27" ++ cfg.model_id ++ "\x27")
  else
    .error ("Unknown provider: " ++ cfg.provider)

/-- `get_model_response`: every exception raised inside the `try` block
(unknown model, key error, backend failure, unknown provider) is converted to
the string `"Error with {model_name}: {message}"`.  The fallible backend is a
parameter returning generated text or an exception message. -/
def get_model_response (backend : BackendCall → Except String String)
    (model_name prompt : String) (temperature top_p : ℚ) : String :=
  match lookupModel model_name with
  | none => "Error with " ++ model_name ++ ": Unknown model: " ++ model_name
  | some cfg =>
    match mkCall cfg prompt temperature top_p with
    | .error msg => "Error with " ++ model_name ++ ": " ++ msg
    | .ok call =>
      match backend call with
      | .ok text => text
      | .error msg => "Error with " ++ model_name ++ ": " ++ msg

/-- `cot_reflection`: the strictly sequential three-stage pipeline.
`provider` abstracts `get_model_response model_name · temperature top_p`,
which never raises (see `cot_reflection_full`).  The function is total; the
enclosing `try` in the source has no remaining failure source once the
provider returns strings. -/
def cot_reflection (provider : String → String)
    (system_prompt cot_prompt question : String)
    (document_content : Option String) : String × String × String :=
  let doc_content :=
    match document_content with
    | some d => if d = "" then "" else "Document Content:\n" ++ d ++ "\n\n"
    | none => ""
  let thinking_prompt :=
    system_prompt ++ "\n\n" ++ doc_content ++ cot_prompt ++ "\n\nQuestion: " ++ question ++
      "\n\nThinking:"
  let thinking_response := provider thinking_prompt
  let thinking := "<thinking>" ++ thinking_response ++ "</thinking>"
  let reflection_prompt :=
    system_prompt ++ "\n\nInitial thinking: " ++ thinking_response ++
      "\n\nReflect on this thinking process. What are the key assumptions? " ++
      "Are there any logical gaps or potential biases? How can the reasoning be improved?"
  let reflection := provider reflection_prompt
  let final_prompt :=
    system_prompt ++ "\n\nQuestion: " ++ question ++
      "\n\nInitial thinking: " ++ thinking_response ++
      "\n\nReflection: " ++ reflection ++
      "\n\nBased on this reflection, provide an improved final answer:"
  let output := provider final_prompt
  (thinking, reflection, output)

/-- The pipeline as invoked in the source: each stage goes through
`get_model_response` with the selected model and parameters. -/
def cot_reflection_full (backend : BackendCall → Except String String)
    (system_prompt cot_prompt question : String) (document_content : Option String)
    (model_name : String) (temperature top_p : ℚ) : String × String × String :=
  cot_reflection (fun p => get_model_response backend model_name p temperature top_p)
    system_prompt cot_prompt question document_content

end CotFile

/-- Thinking-tag extraction performed by `process_question` on the engine's
`thinking` string: `re.search(r'<thinking>(.*?)</thinking>', thinking,
re.DOTALL)`, taking `group(1).strip()` on a match and the whole string
otherwise. -/
def extractThinking (thinking : String) : String :=
  match extractBetween "<thinking>".data "</thinking>".data thinking.data with
  | some content => pyStrip ⟨content⟩
  | none => thinking

example : extractThinking "<thinking>X</thinking>" = "X" := by decide
example : extractThinking "<thinking> X </thinking>" = "X" := by decide
example : extractThinking "no tags at all" = "no tags at all" := by decide
example : extractThinking "<thinking>open only" = "<thinking>open only" := by decide

/-! ## cot_reflection_v1.py -/

namespace CotV1

/-- The single combined prompt (the f-string keeps the source's literal
indentation). -/
def combined_prompt (system_prompt cot_prompt question : String) : String :=
  "\n        " ++ system_prompt ++ "\n\n        " ++ cot_prompt ++
    "\n\n        Question: " ++ question ++ "\n    "

/-- The fallback prompt issued when the extracted `<output>` section is
empty: a concise final answer from question, thinking and reflection only. -/
def output_prompt (question thinking reflection : String) : String :=
  "\n        Based on the following thinking and reflection, provide a concise final answer to the question: \"" ++
    question ++ "\"\n\n        Thinking:\n        " ++ thinking ++
    "\n\n        Reflection:\n        " ++ reflection ++
    "\n\n        Final answer:\n        "

/-- `re.search(r'<thinking>(.*?)</thinking>', full_response, re.DOTALL)`,
stripped on a match, sentinel text otherwise. -/
def v1Thinking (full_response : String) : String :=
  match extractBetween "<thinking>".data "</thinking>".data full_response.data with
  | some c => pyStrip ⟨c⟩
  | none => "No thinking process provided."

def v1Reflection (full_response : String) : String :=
  match extractBetween "<reflection>".data "</reflection>".data full_response.data with
  | some c => pyStrip ⟨c⟩
  | none => "No reflection process provided."

/-- `re.search(r'<output>(.*?)(?:</output>|$)', ...)`, stripped on a match,
empty otherwise. -/
def v1Output (full_response : String) : String :=
  match extractToCloseOrEnd "<output>".data "</output>".data full_response.data with
  | some c => pyStrip ⟨c⟩
  | none => ""

/-- `cot_reflection` of cot_reflection_v1.py: one combined model call,
section extraction, and — when the extracted output is empty — one more
provider call with `output_prompt`.  `provider` abstracts `query_gemini_pro`
(which returns `None` on an API error, hence `Option`). -/
def cot_reflection (provider : String → Option String)
    (system_prompt cot_prompt question : String) :
    Option String × Option String × Option String :=
  match provider (combined_prompt system_prompt cot_prompt question) with
  | none => (none, none, none)
  | some full_response =>
    let thinking := v1Thinking full_response
    let reflection := v1Reflection full_response
    let output := v1Output full_response
    if output = "" then
      (some thinking, some reflection, provider (output_prompt question thinking reflection))
    else
      (some thinking, some reflection, some output)

end CotV1

/-! ## db_utils.py -/

namespace DbUtils

/-- A value stored in or read from the database: TEXT fields, the integer
`id`, and the `created_at` timestamp (abstract clock). -/
inductive DBVal where
  | str : String → DBVal
  | num : Int → DBVal
  | time : Nat → DBVal
deriving DecidableEq, Repr

/-- One row of the `snapshots` table. -/
structure SnapRow where
  id : Nat
  snapshot_name : String
  user_prompt : String
  system_prompt : String
  model_name : String
  cot_prompt : String
  initial_response : String
  thinking : String
  reflection : String
  final_response : String
  created_at : Nat
  tags : String
deriving DecidableEq, Repr

/-- The `snapshots` table plus the AUTOINCREMENT counter (sqlite never
reuses an id after deletion). -/
structure SnapDB where
  nextId : Nat
  rows : List SnapRow
deriving DecidableEq, Repr

/-- Autoincrement invariant: every stored id is below the counter. -/
def SnapDB.wf (db : SnapDB) : Bool := db.rows.all (fun r => r.id < db.nextId)

/-- The keys `save_snapshot` reads with `snapshot_data[...]`, in source
evaluation order (a missing one raises `KeyError`). -/
def requiredKeys : List String :=
  ["snapshot_name", "user_prompt", "system_prompt", "model_name", "cot_prompt",
   "initial_response", "thinking", "reflection", "final_response"]

def firstMissingKey (data : List (String × String)) : Option String :=
  requiredKeys.find? (fun k => (data.lookup k).isNone)

def dataGet (data : List (String × String)) (k : String) : String :=
  (data.lookup k).getD ""

/-- The row inserted by `save_snapshot`: a fresh id, the nine required
fields, `created_at = datetime.now()` and `snapshot_data.get('tags', '')`. -/
def mkRowOf (idv : Nat) (now : Nat) (data : List (String × String)) : SnapRow :=
  { id := idv
    snapshot_name := dataGet data "snapshot_name"
    user_prompt := dataGet data "user_prompt"
    system_prompt := dataGet data "system_prompt"
    model_name := dataGet data "model_name"
    cot_prompt := dataGet data "cot_prompt"
    initial_response := dataGet data "initial_response"
    thinking := dataGet data "thinking"
    reflection := dataGet data "reflection"
    final_response := dataGet data "final_response"
    created_at := now
    tags := dataGet data "tags" }

/-- `save_snapshot`: no content validation; a `KeyError` on the first absent
required key is caught and rendered as `"Error: '<key>'"` with no row
written; otherwise the row is inserted and the success message returned. -/
def save_snapshot (db : SnapDB) (now : Nat) (data : List (String × String)) :
    String × SnapDB :=
  match firstMissingKey data with
  | some k => ("Error: \x27" ++ k ++ "\x27", db)
  | none =>
    ("✓ Snapshot saved successfully",
     ⟨db.nextId + 1, db.rows ++ [mkRowOf db.nextId now data]⟩)

/-- The dictionary `get_snapshot_by_id` builds from a fetched row.  Note that
it has no `"id"` entry. -/
def rowDict (r : SnapRow) : List (String × DBVal) :=
  [("snapshot_name", .str r.snapshot_name),
   ("user_prompt", .str r.user_prompt),
   ("system_prompt", .str r.system_prompt),
   ("model_name", .str r.model_name),
   ("cot_prompt", .str r.cot_prompt),
   ("initial_response", .str r.initial_response),
   ("thinking", .str r.thinking),
   ("reflection", .str r.reflection),
   ("final_response", .str r.final_response),
   ("created_at", .time r.created_at),
   ("tags", .str r.tags)]

/-- `get_snapshot_by_id`: `SELECT * FROM snapshots WHERE id = ?`, `None` when
nothing matches, otherwise the field dictionary. -/
def get_snapshot_by_id (db : SnapDB) (sid : Int) : Option (List (String × DBVal)) :=
  (db.rows.find? (fun r => (r.id : Int) == sid)).map rowDict

def toLowerStr (s : String) : String := ⟨s.data.map Char.toLower⟩

/-- sqlite `field LIKE '%term%'` (case-insensitive substring). -/
def likeContains (field search : String) : Bool :=
  (findSub (toLowerStr search).data (toLowerStr field).data).isSome

def matchesSearch (search : String) (r : SnapRow) : Bool :=
  likeContains r.snapshot_name search || likeContains r.user_prompt search ||
    likeContains r.tags search

/-- Insertion into a list kept in descending `created_at` order. -/
def insertDesc (r : SnapRow) : List SnapRow → List SnapRow
  | [] => [r]
  | x :: xs => if r.created_at ≥ x.created_at then r :: x :: xs else x :: insertDesc r xs

/-- `ORDER BY created_at DESC`. -/
def sortDesc : List SnapRow → List SnapRow
  | [] => []
  | r :: rs => insertDesc r (sortDesc rs)

/-- The six summary columns selected by `get_snapshots`:
id, snapshot_name, created_at, model_name, user_prompt, tags. -/
def summaryRow (r : SnapRow) : List DBVal :=
  [.num r.id, .str r.snapshot_name, .time r.created_at, .str r.model_name,
   .str r.user_prompt, .str r.tags]

/-- `get_snapshots`: optional OR-search over name/user_prompt/tags, newest
first, six columns per row. -/
def get_snapshots (db : SnapDB) (search : String) : List (List DBVal) :=
  if search = "" then (sortDesc db.rows).map summaryRow
  else (sortDesc (db.rows.filter (matchesSearch search))).map summaryRow

/-- Python sequence indexing: out of range raises `IndexError`, whose message
for a tuple is `"tuple index out of range"`. -/
def pyIndex (l : List DBVal) (i : Nat) : Except String DBVal :=
  match l.get? i with
  | some v => .ok v
  | none => .error "tuple index out of range"

/-- `str()` of a fetched value (used for `created_at` in export). -/
def dbValStr : DBVal → String
  | .str s => s
  | .num n => toString n
  | .time t => toString t

/-- The dictionary `export_snapshots` builds per row, evaluating `s[0]` …
`s[11]` in order; `s` has only the six summary columns, so `s[6]` raises. -/
def buildDict (s : List DBVal) : Except String (List (String × DBVal)) := do
  let v0 ← pyIndex s 0
  let v1 ← pyIndex s 1
  let v2 ← pyIndex s 2
  let v3 ← pyIndex s 3
  let v4 ← pyIndex s 4
  let v5 ← pyIndex s 5
  let v6 ← pyIndex s 6
  let v7 ← pyIndex s 7
  let v8 ← pyIndex s 8
  let v9 ← pyIndex s 9
  let v10 ← pyIndex s 10
  let v11 ← pyIndex s 11
  .ok [("id", v0), ("name", v1), ("user_prompt", v2), ("system_prompt", v3),
       ("model_name", v4), ("cot_prompt", v5), ("initial_response", v6),
       ("thinking", v7), ("reflection", v8), ("final_response", v9),
       ("created_at", .str (dbValStr v10)), ("tags", v11)]

def exportAll : List (List DBVal) → Except String (List (List (String × DBVal)))
  | [] => .ok []
  | s :: rest => do
    let d ← buildDict s
    let ds ← exportAll rest
    .ok (d :: ds)

def jsonEscape (s : String) : String :=
  s.data.foldl (fun acc c =>
    acc ++ (if c = '"' then "\\\"" else if c = '\\' then "\\\\"
       else if c = '\n' then "\\n" else if c = '\t' then "\\t"
       else if c = '\r' then "\\r" else String.singleton c)) ""

def jsonValue : DBVal → String
  | .str s => "\"" ++ jsonEscape s ++ "\""
  | .num n => toString n
  | .time t => toString t

def jsonDict (d : List (String × DBVal)) : String :=
  "\x7b\n" ++
    String.intercalate ",\n"
      (d.map (fun kv => "    \"" ++ jsonEscape kv.1 ++ "\": " ++ jsonValue kv.2)) ++
    "\n  \x7d"

/-- `json.dumps(snapshot_list, indent=2)`. -/
def jsonDumps (l : List (List (String × DBVal))) : String :=
  if l.isEmpty then "[]"
  else "[\n  " ++ String.intercalate ",\n  " (l.map jsonDict) ++ "\n]"

/-- `export_snapshots`: the `@safe_db_operation` wrapper turns the
`IndexError` escaping the comprehension into
`"Unexpected error: tuple index out of range"`. -/
def export_snapshots (db : SnapDB) (format : String) : String :=
  if format = "json" then
    match exportAll (get_snapshots db "") with
    | .ok l => jsonDumps l
    | .error m => "Unexpected error: " ++ m
  else "Unsupported export format"

/-- `delete_snapshot`: id validation, existence check, hard delete; returns
the status and the refreshed table.  The string statuses are the exact source
messages. -/
def delete_snapshot (db : SnapDB) (sid : Int) :
    String × SnapDB × List (List DBVal) :=
  if sid ≤ 0 then ("Invalid snapshot ID", db, get_snapshots db "")
  else
    match db.rows.find? (fun r => (r.id : Int) == sid) with
    | none => ("Snapshot with ID " ++ toString sid ++ " not found", db, get_snapshots db "")
    | some _ =>
      let db2 : SnapDB := ⟨db.nextId, db.rows.filter (fun r => !((r.id : Int) == sid))⟩
      ("Snapshot " ++ toString sid ++ " deleted successfully", db2, get_snapshots db2 "")

/-- The `for row in selected_data` loop of `delete_selected_snapshots`,
threading the database, the success counter (incremented only when the
per-row status starts with `"Successfully"`), and the last refreshed table. -/
def deleteLoop : SnapDB → List (List Int) → Nat → Option (List (List DBVal)) →
    SnapDB × Nat × Option (List (List DBVal))
  | db, [], count, upd => (db, count, upd)
  | db, row :: rest, count, upd =>
    match row with
    | [] => deleteLoop db rest count upd
    | i :: _ =>
      let res := delete_snapshot db i
      deleteLoop res.2.1 rest
        (count + (if pyStartswith res.1 "Successfully" then 1 else 0)) (some res.2.2)

/-- `delete_selected_snapshots`; when no row was processed the source reads
the unbound `updated_data`, a `NameError` caught by the generic handler. -/
def delete_selected_snapshots (db : SnapDB) (selected : List (List Int)) :
    String × SnapDB × List (List DBVal) :=
  if selected.isEmpty then ("No snapshots selected", db, get_snapshots db "")
  else
    let res := deleteLoop db selected 0 none
    match res.2.2 with
    | some t => ("Successfully deleted " ++ toString res.2.1 ++ " snapshot(s)", res.1, t)
    | none =>
      ("Error deleting snapshots: name \x27updated_data\x27 is not defined",
       res.1, get_snapshots res.1 "")

end DbUtils

example :
    (DbUtils.save_snapshot ⟨1, []⟩ 5
      [("snapshot_name", "n"), ("user_prompt", "u"), ("system_prompt", "s"),
       ("model_name", "m"), ("cot_prompt", "c"), ("initial_response", "i"),
       ("thinking", "t"), ("reflection", "r"), ("final_response", "f")]).1 =
    "✓ Snapshot saved successfully" := by decide

example :
    (DbUtils.save_snapshot ⟨1, []⟩ 5 [("user_prompt", "u")]).1 =
    "Error: \x27snapshot_name\x27" := by decide

/-! ## cot_reflection_app_v1.py : comparative evaluator -/

namespace AppV1

open DbUtils

def evalSeg0 : String :=
  "\n    "

def evalSeg1 : String :=
  "\n\n    === RESPONSE A ===\n    "

def evalSeg2 : String :=
  "\n\n    === RESPONSE B===\n    "

def evalSeg3 : String :=
  "\n\n    Please evaluate these responses focusing on these specific metrics: "

def evalSeg4 : String :=
  "\n    \n\nSystem / Instruction to Judge LLM:\nYou are an impartial expert evaluator. You will be giv" ++
  "en two responses (Response A and Response B) to a prompt. Your task is to assess and compare these r" ++
  "esponses on several metrics. Follow the instructions below carefully, using a detailed internal chai" ++
  "n-of-thought to arrive at your conclusions. However, only provide your final, summarized justificati" ++
  "ons in your written output—do not reveal the entire chain-of-thought.\n\nStep-by-Step Evaluation Pro" ++
  "cess (Internal)\n\t1.\tRead the Two Responses\n\t•\tCarefully read both Response A and Response B.\n" ++
  "\t•\tInternally identify key points, strengths, and potential shortcomings.\n\t2.\tSummarize Each Re" ++
  "sponse\n\t•\tIn your own words, create a concise summary of what each response is saying or proposin" ++
  "g.\n\t3.\tEvaluate Each Response Across these specific metrics: "

def evalSeg5 : String :=
  "\nFor each metric, assign a score from 1 (very poor) to 10 (excellent).\n\t•\tClarity: How clear, un" ++
  "derstandable, and well-expressed is the response?\n\t•\tCompleteness: To what extent does it address" ++
  " all aspects of the topic/question?\n\t•\tAccuracy: How reliable, correct, and factually sound is th" ++
  "e information provided?\n\t•\tReasoning Quality: Is the explanation or argument well-structured and " ++
  "logical?\n\t•\tPractical Applicability: How useful or actionable is the response for real-world appl" ++
  "ication?\n\t4.\tJustify Each Score\n\t•\tProvide a brief but sufficiently detailed explanation for w" ++
  "hy you gave the score on each metric.\n\t•\tHighlight specific statements or reasoning steps within " ++
  "each response to illustrate your points.\n\t5.\tCompare Strengths and Weaknesses\n\t•\tContrast the " ++
  "two responses across the five metrics.\n\t•\tNote distinct advantages or disadvantages one response " ++
  "may have over the other.\n\t6.\tFormulate an Overall Recommendation\n\t•\tDecide which response is s" ++
  "uperior, or state if they are equally strong.\n\t•\tProvide a concise rationale for your recommendat" ++
  "ion.\n\t7.\tPrepare a Final, Structured Output\n\t•\tSummarize your findings clearly for the user.\n" ++
  "\t•\tInclude only your final justifications (do not reveal your full chain-of-thought).\n\nRequired " ++
  "Output Format\n\t1.\tSummaries of Both Responses\n\t•\tA short, plain-language summary of Response A" ++
  " and Response B.\n\t2.\tScores and Justifications\n\t•\tFor each metric (Clarity, Completeness, Accu" ++
  "racy, Reasoning Quality, Practical Applicability), provide:\n\t•\tScore for Response A with a brief " ++
  "explanation.\n\t•\tScore for Response B with a brief explanation.\n\t3.\tStrengths and Weaknesses Co" ++
  "mparison\n\t•\tA concise table or paragraph comparing the two responses, highlighting key strengths " ++
  "and weaknesses.\n\t4.\tOverall Recommendation\n\t•\tWhich response is preferable (or whether they ar" ++
  "e equally strong), supported by a brief rationale.\n\nExample of What the Judge LLM’s Final Output M" ++
  "ight Look Like\n\n\tSummaries\nResponse A: Summarizes key points and overall conclusion.\nResponse B" ++
  ": Summarizes key points and overall conclusion.\n\n\tScores and Justifications\n\t\t•\tClarity:\n\t•" ++
  "\tResponse A: 8/10 (Explanation)\n\t•\tResponse B: 7/10 (Explanation)\n\t•\tCompleteness:\n\t•\tResp" ++
  "onse A: 9/10 (Explanation)\n\t•\tResponse B: 6/10 (Explanation)\n\t•\t(Repeat for Accuracy, Reasonin" ++
  "g Quality, Practical Applicability)\n\n\tStrengths and Weaknesses\n\t\t•\tResponse A excels in X. It" ++
  " could improve on Y.\n\t•\tResponse B provides Z but lacks detail on Q.\n\n\tOverall Recommendation" ++
  "\n\t\t•\te.g., “Response A is generally stronger due to better completeness and reasoning quality.”" ++
  "\n\nNotes & Best Practices\n\t•\tKeep Chain-of-Thought Internal: While you should use step-by-step r" ++
  "easoning to evaluate the responses thoroughly, do not reveal your entire thought process in the fina" ++
  "l answer. Summaries and succinct justifications are sufficient for the user.\n\t•\tMaintain Impartia" ++
  "lity: Provide unbiased, evidence-based assessments.\n\t•\tBe Specific and Concrete: When justifying " ++
  "scores, point to actual content from the responses to illustrate your reasoning.\n\t•\tUse Clear Lan" ++
  "guage: The final output should be easily understandable to a broad range of users.\n    "


/-- `', '.join(metrics)`. -/
def commaJoin (l : List String) : String := String.intercalate ", " l

/-- `create_evaluation_prompt`: the judge-prompt f-string, with the custom
criteria, both content blocks and the metric list interpolated. -/
def create_evaluation_prompt (content1 content2 : String) (metrics : List String)
    (custom_criteria : String) : String :=
  evalSeg0 ++ custom_criteria ++ evalSeg1 ++ content1 ++ evalSeg2 ++ content2 ++
    evalSeg3 ++ commaJoin metrics ++ evalSeg4 ++ commaJoin metrics ++ evalSeg5

/-- `snap.get(key, '')` followed by f-string interpolation of the value. -/
def pyGetStr (d : List (String × DBVal)) (k : String) : String :=
  match d.lookup k with
  | some (.str v) => v
  | some (.num n) => toString n
  | some (.time t) => toString t
  | none => ""

/-- The labeled block one aspect contributes to a snapshot's comparison
content.  A recognized aspect always contributes its block — also when the
underlying field is empty; an unrecognized aspect contributes nothing. -/
def blockFor (snap : List (String × DBVal)) (aspect : String) : String :=
  if aspect = "Thinking" then
    "=== Thinking ===\n" ++ pyGetStr snap "thinking" ++ "\n\n"
  else if aspect = "Reflection" then
    "=== Reflection ===\n" ++ pyGetStr snap "reflection" ++ "\n\n"
  else if aspect = "Final Output" then
    "=== Final Output ===\n" ++ pyGetStr snap "final_response" ++ "\n\n"
  else ""

/-- The `for aspect in aspects: content += ...` accumulation loop. -/
def buildContentAux (snap : List (String × DBVal)) : List String → String → String
  | [], acc => acc
  | a :: rest, acc => buildContentAux snap rest (acc ++ blockFor snap a)

/-- Per-snapshot comparison content built by `evaluate_snapshots`. -/
def buildContent (aspects : List String) (snap : List (String × DBVal)) : String :=
  buildContentAux snap aspects ""

/-- `metric.split(" (")[0]`. -/
def metricName (metric : String) : String := pySplitFirst metric " ("

/-- Attempt to match `name[:\-]\s*(\d+)` at the head of `s`: the literal
name, one of `:`/`-`, greedy whitespace, then at least one digit (the parsed
group, maximal munch). -/
def matchScoreAt (name : List Char) (s : List Char) : Option Nat :=
  if listStarts name s then
    match s.drop name.length with
    | [] => none
    | c :: rest =>
      if c = ':' ∨ c = '-' then
        let digits := (rest.dropWhile pyIsSpace).takeWhile Char.isDigit
        if digits.isEmpty then none
        else some (digits.foldl (fun n d => n * 10 + (d.toNat - 48)) 0)
      else none
  else none

/-- `re.search(f"{metric_name}[:\-]\s*(\d+)", verdict)`: leftmost match. -/
def searchScore (name : List Char) : List Char → Option Nat
  | [] => matchScoreAt name []
  | c :: cs =>
    match matchScoreAt name (c :: cs) with
    | some v => some v
    | none => searchScore name cs

/-- Python dict assignment `scores[name] = v` on an insertion-ordered map. -/
def dictInsert (l : List (String × Nat)) (k : String) (v : Nat) : List (String × Nat) :=
  if l.any (fun p => p.1 == k) then l.map (fun p => if p.1 == k then (k, v) else p)
  else l ++ [(k, v)]

/-- The `for metric in metrics` score-parsing loop: a metric with no match is
simply skipped. -/
def parseScoresAux : List String → String → List (String × Nat) → List (String × Nat)
  | [], _, scores => scores
  | m :: ms, resp, scores =>
    match searchScore (metricName m).data resp.data with
    | some v => parseScoresAux ms resp (dictInsert scores (metricName m) v)
    | none => parseScoresAux ms resp scores

def parseScores (metrics : List String) (resp : String) : List (String × Nat) :=
  parseScoresAux metrics resp []

/-- `evaluate_snapshots`: id validation, snapshot resolution, per-snapshot
content built from the selected aspects, one judge-model call (`provider`
abstracts `get_model_response judge_model ·`), and best-effort score
parsing. -/
def evaluate_snapshots (db : SnapDB) (provider : String → String)
    (snapshot1_id snapshot2_id : Int) (aspects : List String)
    (metrics : List String) (custom_criteria : String) :
    List (String × Nat) × String :=
  if snapshot1_id == 0 || snapshot2_id == 0 then
    ([], "Please select both snapshots for comparison")
  else
    match get_snapshot_by_id db snapshot1_id, get_snapshot_by_id db snapshot2_id with
    | some snap1, some snap2 =>
      let content1 := buildContent aspects snap1
      let content2 := buildContent aspects snap2
      let evaluation_prompt :=
        create_evaluation_prompt content1 content2 metrics custom_criteria
      let evaluation_response := provider evaluation_prompt
      (parseScores metrics evaluation_response, evaluation_response)
    | _, _ => ([], "One or both snapshots not found")

end AppV1

example : AppV1.parseScores ["Clarity"] "Clarity: 8/10" = [("Clarity", 8)] := by decide
example : AppV1.parseScores ["Clarity"] "no scores here" = [] := by decide
example :
    AppV1.buildContent ["Thinking"] [("thinking", DbUtils.DBVal.str "")] =
    "=== Thinking ===\n\n\n" := by decide

/-! ## Helper lemmas -/

theorem findSub_drop_none (pat : List Char) :
    ∀ (l : List Char) (k : Nat), findSub pat l = none → findSub pat (l.drop k) = none := by
  intro l
  induction l with
  | nil => intro k h; simpa using h
  | cons c cs ih =>
    intro k h
    cases k with
    | zero => simpa using h
    | succ k =>
      simp only [List.drop_succ_cons]
      apply ih
      unfold findSub at h
      split at h
      · exact absurd h (by simp)
      · exact Option.map_eq_none'.mp h

theorem buildContentAux_acc (snap : List (String × DbUtils.DBVal)) :
    ∀ (l : List String) (acc : String),
      AppV1.buildContentAux snap l acc = acc ++ AppV1.buildContentAux snap l "" := by
  intro l
  induction l with
  | nil => intro acc; simp [AppV1.buildContentAux]
  | cons a rest ih =>
    intro acc
    show AppV1.buildContentAux snap rest (acc ++ AppV1.blockFor snap a) =
      acc ++ AppV1.buildContentAux snap rest ("" ++ AppV1.blockFor snap a)
    rw [ih (acc ++ AppV1.blockFor snap a), ih ("" ++ AppV1.blockFor snap a)]
    rw [String.append_assoc, String.append_assoc]
    rfl


/-! ## Claim-level definitions -/

/-- The error text of the spec's end-to-end stub scenario. -/
def stubError : String := "Error with stub-model: timeout"

/-- The `AVAILABLE_MODELS` entry for "Gemini 2.0 Flash". -/
def geminiCfg : CotFile.ModelConfig :=
  ⟨"vertex_ai", "vertex_ai/gemini-2.0-flash-001", "europe-west1", (0, 1), (0, 1)⟩

/-! ## Claim C1 -/

/-- C1 counterexample: with a provider that always returns the literal
`"Error with stub-model: timeout"`, the pipeline's `thinking` component is
the tag-wrapped error string, not the literal error string itself. -/
theorem claim1_cex :
    (CotFile.cot_reflection (fun _ => stubError) "sys" "cot" "q" none).1 ≠ stubError ∧
    (CotFile.cot_reflection (fun _ => stubError) "sys" "cot" "q" none).1 =
      "<thinking>" ++ stubError ++ "</thinking>" := by
  exact ⟨by decide, rfl⟩

/-- C1 (amended): `get_model_response` converts an unknown model name and any
backend failure into `"Error with {model_name}: {message}"`; a pipeline whose
provider constantly returns an error string `E` completes with
`thinking = "<thinking>" ++ E ++ "</thinking>"` (whose tag extraction yields
`E`) and `reflection = output = E`; no failure path exists. -/
theorem claim1_amended :
    (∀ (backend : CotFile.BackendCall → Except String String)
        (name prompt : String) (t p : ℚ),
        CotFile.lookupModel name = none →
        CotFile.get_model_response backend name prompt t p =
          "Error with " ++ name ++ ": Unknown model: " ++ name) ∧
    (∀ (backend : CotFile.BackendCall → Except String String)
        (name : String) (cfg : CotFile.ModelConfig) (prompt : String) (t p : ℚ)
        (call : CotFile.BackendCall) (m : String),
        CotFile.lookupModel name = some cfg →
        CotFile.mkCall cfg prompt t p = Except.ok call →
        backend call = Except.error m →
        CotFile.get_model_response backend name prompt t p =
          "Error with " ++ name ++ ": " ++ m) ∧
    (∀ (provider : String → String) (E s c q : String) (d : Option String),
        (∀ x, provider x = E) →
        CotFile.cot_reflection provider s c q d =
          ("<thinking>" ++ E ++ "</thinking>", E, E)) ∧
    extractThinking ("<thinking>" ++ stubError ++ "</thinking>") = stubError := by
  refine ⟨?_, ?_, ?_, by decide⟩
  · intro backend name prompt t p h
    simp [CotFile.get_model_response, h]
  · intro backend name cfg prompt t p call m h1 h2 h3
    simp [CotFile.get_model_response, h1, h2, h3]
  · intro provider E s c q d hp
    simp only [CotFile.cot_reflection]
    rw [hp, hp, hp]

/-- C1 witness: the amended statement applied to the unknown model
"stub-model", to a registered model with a failing backend, and to the
constant-error pipeline. -/
theorem claim1_witness :
    CotFile.get_model_response (fun _ => Except.error "timeout") "stub-model" "p" 1 1 =
      "Error with " ++ "stub-model" ++ ": Unknown model: " ++ "stub-model" ∧
    CotFile.get_model_response (fun _ => Except.error "boom") "Gemini 2.0 Flash" "p" 1 1 =
      "Error with " ++ "Gemini 2.0 Flash" ++ ": " ++ "boom" ∧
    CotFile.cot_reflection (fun _ => stubError) "s" "c" "q" none =
      ("<thinking>" ++ stubError ++ "</thinking>", stubError, stubError) := by
  refine ⟨?_, ?_, ?_⟩
  · exact claim1_amended.1 (fun _ => Except.error "timeout") "stub-model" "p" 1 1 (by decide)
  · exact claim1_amended.2.1 (fun _ => Except.error "boom") "Gemini 2.0 Flash" geminiCfg
      "p" 1 1 ⟨"vertex_ai/gemini-2.0-flash-001", "p", some "europe-west1", none, none, 1, 1⟩
      "boom" (by decide) rfl rfl
  · exact claim1_amended.2.2.1 (fun _ => stubError) stubError "s" "c" "q" none (fun _ => rfl)

/-! ## Claim C3 -/

/-- C3 counterexample: for the registered model "Gemini 2.0 Flash" with
declared ranges `[0, 1]`, a caller-supplied temperature 5 and top_p 2 are
passed to the backend unchanged — not clamped into the declared ranges. -/
theorem claim3_cex :
    CotFile.lookupModel "Gemini 2.0 Flash" = some geminiCfg ∧
    geminiCfg.temp_range = (0, 1) ∧ geminiCfg.top_p_range = (0, 1) ∧
    (CotFile.mkCall geminiCfg "p" 5 2).map CotFile.BackendCall.temperature = Except.ok 5 ∧
    (CotFile.mkCall geminiCfg "p" 5 2).map CotFile.BackendCall.top_p = Except.ok 2 ∧
    ¬((5 : ℚ) ≤ 1) ∧ ¬((2 : ℚ) ≤ 1) := by
  refine ⟨by decide, rfl, rfl, rfl, rfl, by norm_num, by norm_num⟩

/-- C3 (amended): whenever `get_model_response` reaches the backend, the
caller-supplied `temperature` and `top_p` are passed through verbatim —
no clamping and no error; the declared ranges only feed `get_model_params`
(UI slider bounds). -/
theorem claim3_amended :
    ∀ (cfg : CotFile.ModelConfig) (prompt : String) (t p : ℚ)
      (call : CotFile.BackendCall),
      CotFile.mkCall cfg prompt t p = Except.ok call →
      call.temperature = t ∧ call.top_p = p := by
  intro cfg prompt t p call h
  unfold CotFile.mkCall at h
  split at h
  · cases h; exact ⟨rfl, rfl⟩
  · split at h
    · split at h
      · cases h; exact ⟨rfl, rfl⟩
      · cases h
    · cases h

/-- C3 witness: the amended statement at "Gemini 2.0 Flash" with out-of-range
temperature 5 and top_p 2. -/
theorem claim3_witness :
    (⟨"vertex_ai/gemini-2.0-flash-001", "p", some "europe-west1", none, none, 5, 2⟩ :
      CotFile.BackendCall).temperature = 5 ∧
    (⟨"vertex_ai/gemini-2.0-flash-001", "p", some "europe-west1", none, none, 5, 2⟩ :
      CotFile.BackendCall).top_p = 2 :=
  claim3_amended geminiCfg "p" 5 2
    ⟨"vertex_ai/gemini-2.0-flash-001", "p", some "europe-west1", none, none, 5, 2⟩ rfl

/-! ## Claim C2 -/

/-- C2 counterexample: for non-empty question/system/cot prompts and a
deterministic provider returning empty text, the three-stage pipeline of
cot_reflection_file.py returns an empty final output — it has no fallback
synthesis call. -/
theorem claim2_cex :
    ("q" ≠ "" ∧ "sys" ≠ "" ∧ "cot" ≠ "") ∧
    (CotFile.cot_reflection (fun _ => "") "sys" "cot" "q" none).2.2 = "" := by
  decide

/-- C2 (amended): the empty-output fallback exists only in the single-call
pipeline of cot_reflection_v1.py: when the extracted `<output>` section of
the combined response is empty, the final output is the result of one more
provider call with the concise-final-answer prompt built from the question,
thinking and reflection texts. -/
theorem claim2_amended :
    ∀ (provider : String → Option String) (s c q full : String),
      provider (CotV1.combined_prompt s c q) = some full →
      CotV1.v1Output full = "" →
      (CotV1.cot_reflection provider s c q).2.2 =
        provider (CotV1.output_prompt q (CotV1.v1Thinking full) (CotV1.v1Reflection full)) := by
  intro provider s c q full h1 h2
  simp [CotV1.cot_reflection, h1, h2]

/-- A provider stub for exercising the v1 fallback: the combined call returns
text with no `<output>` tag, any other prompt returns "FALLBACK". -/
def c2Provider : String → Option String := fun x =>
  if x = CotV1.combined_prompt "s" "c" "q" then some "plain text" else some "FALLBACK"

/-- C2 witness: the amended statement at the stub provider — the pipeline's
final output is the fallback call's result. -/
theorem claim2_witness :
    (CotV1.cot_reflection c2Provider "s" "c" "q").2.2 =
      c2Provider (CotV1.output_prompt "q" (CotV1.v1Thinking "plain text")
        (CotV1.v1Reflection "plain text")) :=
  claim2_amended c2Provider "s" "c" "q" "plain text" (by decide) (by decide)

/-! ## Claim C9 -/

/-- C9 counterexample: extraction applies `.strip()` to the matched group, so
it does not yield exactly the substring between the tags when that substring
carries surrounding whitespace. -/
theorem claim9_cex :
    extractThinking "<thinking> X </thinking>" = "X" ∧
    extractThinking "<thinking> X </thinking>" ≠ " X " := by
  decide

/-- C9 (amended): extraction yields the substring between `<thinking>` and
`</thinking>` with leading/trailing whitespace stripped (`"X"` from
`"<thinking>X</thinking>"`), and yields the full string unchanged whenever no
closing tag is present. -/
theorem claim9_amended :
    extractThinking "<thinking>X</thinking>" = "X" ∧
    extractThinking "<thinking> X </thinking>" = pyStrip " X " ∧
    (∀ s : String, findSub "</thinking>".data s.data = none → extractThinking s = s) := by
  refine ⟨by decide, by decide, ?_⟩
  intro s h
  unfold extractThinking extractBetween
  cases hfo : findSub "<thinking>".data s.data with
  | none => rfl
  | some i =>
    have h2 : findSub "</thinking>".data (List.drop (i + 10) s.data) = none :=
      findSub_drop_none "</thinking>".data s.data (i + 10) h
    simp only [String.data] at h2 ⊢
    simp [h2]

/-! ## Claim C6 -/

/-- A snapshot dict with every required key present. -/
def sampleDataOf (n up sp mn cp ir th rf fr tg : String) : List (String × String) :=
  [("snapshot_name", n), ("user_prompt", up), ("system_prompt", sp), ("model_name", mn),
   ("cot_prompt", cp), ("initial_response", ir), ("thinking", th), ("reflection", rf),
   ("final_response", fr), ("tags", tg)]

/-- A snapshot dict whose `snapshot_name` and `user_prompt` are present but
empty. -/
def emptyNameData : List (String × String) :=
  sampleDataOf "" "" "s" "m" "c" "i" "t" "r" "f" "tg"

/-- C6 counterexample: `save_snapshot` accepts a snapshot whose name and
user_prompt are empty strings — it reports success and durably writes the
row, instead of rejecting with a validation error. -/
theorem claim6_cex :
    (DbUtils.save_snapshot ⟨1, []⟩ 5 emptyNameData).1 = "✓ Snapshot saved successfully" ∧
    (DbUtils.save_snapshot ⟨1, []⟩ 5 emptyNameData).2.rows.length = 1 ∧
    (DbUtils.save_snapshot ⟨1, []⟩ 5 emptyNameData).2.rows.map
        DbUtils.SnapRow.snapshot_name = [""] ∧
    (DbUtils.save_snapshot ⟨1, []⟩ 5 emptyNameData).2.rows.map
        DbUtils.SnapRow.user_prompt = [""] := by
  decide

/-- C6 (amended): `save_snapshot` performs no emptiness validation.  It fails
— error string returned, database unchanged — exactly when a required key is
absent from the dict (`KeyError`); with all keys present (even with empty
values) it appends one row with `created_at` set to the current time and the
fresh id `db.nextId`; under the autoincrement invariant that id is unused and
the invariant is preserved. -/
theorem claim6_amended :
    (∀ (db : DbUtils.SnapDB) (now : Nat) (data : List (String × String)) (k : String),
        DbUtils.firstMissingKey data = some k →
        DbUtils.save_snapshot db now data = ("Error: \x27" ++ k ++ "\x27", db)) ∧
    (∀ (db : DbUtils.SnapDB) (now : Nat) (data : List (String × String)),
        DbUtils.firstMissingKey data = none →
        DbUtils.save_snapshot db now data =
          ("✓ Snapshot saved successfully",
           ⟨db.nextId + 1, db.rows ++ [DbUtils.mkRowOf db.nextId now data]⟩)) ∧
    (∀ (db : DbUtils.SnapDB) (now : Nat) (data : List (String × String)),
        db.wf = true → DbUtils.firstMissingKey data = none →
        (∀ r ∈ db.rows, r.id ≠ db.nextId) ∧
        (DbUtils.save_snapshot db now data).2.wf = true) := by
  refine ⟨?_, ?_, ?_⟩
  · intro db now data k h
    simp [DbUtils.save_snapshot, h]
  · intro db now data h
    simp [DbUtils.save_snapshot, h]
  · intro db now data hwf h
    have hlt : ∀ r ∈ db.rows, r.id < db.nextId := by
      intro r hr
      have := List.all_eq_true.mp hwf r hr
      simpa using this
    constructor
    · intro r hr
      exact Nat.ne_of_lt (hlt r hr)
    · simp only [DbUtils.save_snapshot, h]
      apply List.all_eq_true.mpr
      intro r hr
      rcases List.mem_append.mp hr with hl | hl
      · simpa using Nat.lt_succ_of_lt (hlt r hl)
      · rcases List.mem_singleton.mp hl with rfl
        simp [DbUtils.mkRowOf]

/-- C6 witness: the amended statement at a missing key, at a complete dict,
and at an empty well-formed database. -/
theorem claim6_witness :
    DbUtils.save_snapshot ⟨1, []⟩ 5 [("user_prompt", "u")] =
      ("Error: \x27" ++ "snapshot_name" ++ "\x27", ⟨1, []⟩) ∧
    DbUtils.save_snapshot ⟨1, []⟩ 5 emptyNameData =
      ("✓ Snapshot saved successfully",
       ⟨2, [] ++ [DbUtils.mkRowOf 1 5 emptyNameData]⟩) ∧
    (DbUtils.save_snapshot ⟨1, []⟩ 5 emptyNameData).2.wf = true := by
  refine ⟨?_, ?_, ?_⟩
  · exact claim6_amended.1 ⟨1, []⟩ 5 [("user_prompt", "u")] "snapshot_name" (by decide)
  · exact claim6_amended.2.1 ⟨1, []⟩ 5 emptyNameData (by decide)
  · exact (claim6_amended.2.2 ⟨1, []⟩ 5 emptyNameData (by decide) (by decide)).2

/-! ## Claim C4 -/

/-- Concrete field values for the round-trip counterexample. -/
def cexData : List (String × String) :=
  sampleDataOf "nm" "upr" "sys" "mdl" "cot" "init" "think" "refl" "fin" "tg"

/-- The database after saving `cexData` into an empty store. -/
def cexDb : DbUtils.SnapDB := (DbUtils.save_snapshot ⟨1, []⟩ 7 cexData).2

/-- C4 counterexample: after create-then-get, the returned dictionary carries
every submitted field and the server-assigned `created_at` — but no `"id"`
entry at all. -/
theorem claim4_cex :
    (DbUtils.get_snapshot_by_id cexDb 1).isSome = true ∧
    ((DbUtils.get_snapshot_by_id cexDb 1).getD []).lookup "snapshot_name" =
      some (DbUtils.DBVal.str "nm") ∧
    ((DbUtils.get_snapshot_by_id cexDb 1).getD []).lookup "created_at" =
      some (DbUtils.DBVal.time 7) ∧
    ((DbUtils.get_snapshot_by_id cexDb 1).getD []).lookup "id" = none := by
  decide

/-- C4 (amended): for any well-formed store, create-then-get on the newly
assigned id returns exactly the submitted fields plus the server-assigned
`created_at`; the assigned `id` itself is not part of the returned
dictionary. -/
theorem claim4_amended :
    ∀ (db : DbUtils.SnapDB) (now : Nat) (n up sp mn cp ir th rf fr tg : String),
      db.wf = true →
      DbUtils.get_snapshot_by_id
          (DbUtils.save_snapshot db now (sampleDataOf n up sp mn cp ir th rf fr tg)).2
          (db.nextId : Int) =
        some [("snapshot_name", .str n), ("user_prompt", .str up),
              ("system_prompt", .str sp), ("model_name", .str mn),
              ("cot_prompt", .str cp), ("initial_response", .str ir),
              ("thinking", .str th), ("reflection", .str rf),
              ("final_response", .str fr), ("created_at", .time now),
              ("tags", .str tg)] ∧
      (∀ d, DbUtils.get_snapshot_by_id
          (DbUtils.save_snapshot db now (sampleDataOf n up sp mn cp ir th rf fr tg)).2
          (db.nextId : Int) = some d → d.lookup "id" = none) := by
  intro db now n up sp mn cp ir th rf fr tg hwf
  have hnone : DbUtils.firstMissingKey (sampleDataOf n up sp mn cp ir th rf fr tg) = none := rfl
  have hsave :
      DbUtils.save_snapshot db now (sampleDataOf n up sp mn cp ir th rf fr tg) =
        ("✓ Snapshot saved successfully",
         ⟨db.nextId + 1,
          db.rows ++ [DbUtils.mkRowOf db.nextId now (sampleDataOf n up sp mn cp ir th rf fr tg)]⟩) := by
    simp [DbUtils.save_snapshot, hnone]
  have hfindnil :
      db.rows.find? (fun r => (r.id : Int) == (db.nextId : Int)) = none := by
    apply List.find?_eq_none.mpr
    intro r hr
    have hlt : r.id < db.nextId := by
      have := List.all_eq_true.mp hwf r hr
      simpa using this
    simp only [beq_iff_eq, Int.natCast_inj]
    omega
  have hget :
      DbUtils.get_snapshot_by_id
          (DbUtils.save_snapshot db now (sampleDataOf n up sp mn cp ir th rf fr tg)).2
          (db.nextId : Int) =
        some [("snapshot_name", .str n), ("user_prompt", .str up),
              ("system_prompt", .str sp), ("model_name", .str mn),
              ("cot_prompt", .str cp), ("initial_response", .str ir),
              ("thinking", .str th), ("reflection", .str rf),
              ("final_response", .str fr), ("created_at", .time now),
              ("tags", .str tg)] := by
    rw [hsave]
    unfold DbUtils.get_snapshot_by_id
    rw [List.find?_append, hfindnil]
    have hp : (((DbUtils.mkRowOf db.nextId now
        (sampleDataOf n up sp mn cp ir th rf fr tg)).id : Int) == (db.nextId : Int)) = true := by
      simp [DbUtils.mkRowOf]
    simp only [List.find?_cons, hp]
    rfl
  refine ⟨hget, ?_⟩
  intro d hd
  rw [hget] at hd
  cases Option.some.inj hd
  rfl

/-- C4 witness: the amended round-trip at an empty well-formed store with
concrete field values. -/
theorem claim4_witness :
    DbUtils.get_snapshot_by_id
        (DbUtils.save_snapshot ⟨1, []⟩ 7
          (sampleDataOf "nm" "upr" "sys" "mdl" "cot" "init" "think" "refl" "fin" "tg")).2
        ((1 : Nat) : Int) =
      some [("snapshot_name", .str "nm"), ("user_prompt", .str "upr"),
            ("system_prompt", .str "sys"), ("model_name", .str "mdl"),
            ("cot_prompt", .str "cot"), ("initial_response", .str "init"),
            ("thinking", .str "think"), ("reflection", .str "refl"),
            ("final_response", .str "fin"), ("created_at", .time 7),
            ("tags", .str "tg")] :=
  (claim4_amended ⟨1, []⟩ 7 "nm" "upr" "sys" "mdl" "cot" "init" "think" "refl" "fin" "tg"
    (by decide)).1

/-! ## Claim C5 -/

theorem insertDesc_length (r : DbUtils.SnapRow) :
    ∀ l : List DbUtils.SnapRow, (DbUtils.insertDesc r l).length = l.length + 1 := by
  intro l
  induction l with
  | nil => rfl
  | cons x xs ih =>
    unfold DbUtils.insertDesc
    split
    · simp
    · simp [ih]

theorem sortDesc_length :
    ∀ l : List DbUtils.SnapRow, (DbUtils.sortDesc l).length = l.length := by
  intro l
  induction l with
  | nil => rfl
  | cons r rs ih => simp [DbUtils.sortDesc, insertDesc_length, ih]

theorem sortDesc_ne_nil {l : List DbUtils.SnapRow} (h : l ≠ []) :
    DbUtils.sortDesc l ≠ [] := by
  intro hc
  apply h
  have := sortDesc_length l
  rw [hc] at this
  exact List.length_eq_zero.mp this.symm

/-- Each six-column summary row makes the 12-field export dict raise
`IndexError` at `s[6]`. -/
theorem buildDict_summary (r : DbUtils.SnapRow) :
    DbUtils.buildDict (DbUtils.summaryRow r) = .error "tuple index out of range" := rfl

theorem exportAll_cons_error {s : List DbUtils.DBVal} {m : String}
    (h : DbUtils.buildDict s = .error m) (rest : List (List DbUtils.DBVal)) :
    DbUtils.exportAll (s :: rest) = .error m := by
  simp [DbUtils.exportAll, h, Bind.bind, Except.bind]

/-- C5: the code bug.  With any snapshot stored, `export_snapshots` builds a
12-field dict from the 6-column rows of `get_snapshots` and dies on `s[6]`;
the wrapper reports `"Unexpected error: tuple index out of range"` instead of
a serialization of the snapshots. -/
theorem claim5_thm :
    ∀ db : DbUtils.SnapDB, db.rows ≠ [] →
      DbUtils.export_snapshots db "json" = "Unexpected error: tuple index out of range" := by
  intro db h
  obtain ⟨r, L, hrl⟩ := List.exists_cons_of_ne_nil (sortDesc_ne_nil h)
  have hg : DbUtils.get_snapshots db "" =
      DbUtils.summaryRow r :: L.map DbUtils.summaryRow := by
    unfold DbUtils.get_snapshots
    rw [if_pos rfl, hrl]
    simp
  unfold DbUtils.export_snapshots
  rw [if_pos rfl, hg, exportAll_cons_error (buildDict_summary r)]
  rfl

/-- C5 witness: the bug evaluated on the concrete one-snapshot store
`cexDb`. -/
theorem claim5_witness :
    DbUtils.export_snapshots cexDb "json" = "Unexpected error: tuple index out of range" :=
  claim5_thm cexDb (by decide)

/-! ## Claim C10 -/

/-- No status `delete_snapshot` can return starts with `"Successfully"`: its
success message starts with `"Snapshot "`. -/
theorem delete_status_not_success (db : DbUtils.SnapDB) (i : Int) :
    pyStartswith (DbUtils.delete_snapshot db i).1 "Successfully" = false := by
  by_cases hsid : i ≤ 0
  · simp only [DbUtils.delete_snapshot, if_pos hsid]
    rfl
  · cases hf : db.rows.find? (fun r => (r.id : Int) == i) with
    | none =>
      simp only [DbUtils.delete_snapshot, if_neg hsid, hf]
      rfl
    | some x =>
      simp only [DbUtils.delete_snapshot, if_neg hsid, hf]
      rfl

theorem delete_snapshot_rows_sub (db : DbUtils.SnapDB) (i : Int) :
    ∀ r ∈ (DbUtils.delete_snapshot db i).2.1.rows, r ∈ db.rows := by
  intro r hr
  by_cases hsid : i ≤ 0
  · simpa [DbUtils.delete_snapshot, if_pos hsid] using hr
  · cases hf : db.rows.find? (fun x => (x.id : Int) == i) with
    | none =>
      simpa [DbUtils.delete_snapshot, if_neg hsid, hf] using hr
    | some x =>
      simp only [DbUtils.delete_snapshot, if_neg hsid, hf] at hr
      exact (List.mem_filter.mp hr).1

/-- After `delete_snapshot db i` with a positive id, no remaining row carries
id `i` (either the rows were filtered, or no row carried `i` to begin
with). -/
theorem delete_snapshot_removes (db : DbUtils.SnapDB) (i : Int) (hpos : 0 < i) :
    ∀ r ∈ (DbUtils.delete_snapshot db i).2.1.rows, (r.id : Int) ≠ i := by
  intro r hr
  have hsid : ¬(i ≤ 0) := by omega
  cases hf : db.rows.find? (fun x => (x.id : Int) == i) with
  | none =>
    simp only [DbUtils.delete_snapshot, if_neg hsid, hf] at hr
    have h3 := List.find?_eq_none.mp hf r hr
    intro he
    exact h3 (by simp [he])
  | some x =>
    simp only [DbUtils.delete_snapshot, if_neg hsid, hf] at hr
    have h2 := (List.mem_filter.mp hr).2
    intro he
    simp [he] at h2

theorem deleteLoop_count :
    ∀ (rows : List (List Int)) (db : DbUtils.SnapDB) (c : Nat)
      (u : Option (List (List DbUtils.DBVal))),
      (DbUtils.deleteLoop db rows c u).2.1 = c := by
  intro rows
  induction rows with
  | nil => intro db c u; rfl
  | cons row rest ih =>
    intro db c u
    cases row with
    | nil => exact ih db c u
    | cons i is =>
      show (DbUtils.deleteLoop (DbUtils.delete_snapshot db i).2.1 rest
        (c + (if pyStartswith (DbUtils.delete_snapshot db i).1 "Successfully" then 1 else 0))
        (some (DbUtils.delete_snapshot db i).2.2)).2.1 = c
      rw [delete_status_not_success]
      simp only [Bool.false_eq_true, if_false, Nat.add_zero]
      exact ih _ _ _

theorem deleteLoop_rows_sub :
    ∀ (rows : List (List Int)) (db : DbUtils.SnapDB) (c : Nat)
      (u : Option (List (List DbUtils.DBVal))),
      ∀ r ∈ (DbUtils.deleteLoop db rows c u).1.rows, r ∈ db.rows := by
  intro rows
  induction rows with
  | nil => intro db c u r hr; exact hr
  | cons row rest ih =>
    intro db c u r hr
    cases row with
    | nil => exact ih db c u r hr
    | cons i is =>
      exact delete_snapshot_rows_sub db i r (ih _ _ _ r hr)

/-- Once a selection row `i :: _` with positive `i` is processed, no row of
the final database carries id `i`. -/
theorem deleteLoop_kills :
    ∀ (rows : List (List Int)) (db : DbUtils.SnapDB) (c : Nat)
      (u : Option (List (List DbUtils.DBVal))) (i : Int) (is : List Int),
      (i :: is) ∈ rows → 0 < i →
      ∀ r ∈ (DbUtils.deleteLoop db rows c u).1.rows, (r.id : Int) ≠ i := by
  intro rows
  induction rows with
  | nil => intro db c u i is hmem; exact absurd hmem (List.not_mem_nil _)
  | cons row rest ih =>
    intro db c u i is hmem hpos r hr
    rcases List.mem_cons.mp hmem with heq | htail
    · subst heq
      have habs : ∀ x ∈ (DbUtils.delete_snapshot db i).2.1.rows, (x.id : Int) ≠ i :=
        delete_snapshot_removes db i hpos
      exact habs r (deleteLoop_rows_sub rest _ _ _ r hr)
    · cases row with
      | nil => exact ih db c u i is htail hpos r hr
      | cons j js => exact ih _ _ _ i is htail hpos r hr

theorem deleteLoop_upd_isSome :
    ∀ (rows : List (List Int)) (db : DbUtils.SnapDB) (c : Nat)
      (t : List (List DbUtils.DBVal)),
      (DbUtils.deleteLoop db rows c (some t)).2.2.isSome = true := by
  intro rows
  induction rows with
  | nil => intro db c t; rfl
  | cons row rest ih =>
    intro db c t
    cases row with
    | nil => exact ih db c t
    | cons i is => exact ih _ _ _

theorem deleteLoop_upd_start :
    ∀ (rows : List (List Int)) (db : DbUtils.SnapDB) (c : Nat)
      (u : Option (List (List DbUtils.DBVal))) (i : Int) (is : List Int),
      (i :: is) ∈ rows →
      (DbUtils.deleteLoop db rows c u).2.2.isSome = true := by
  intro rows
  induction rows with
  | nil => intro db c u i is hmem; exact absurd hmem (List.not_mem_nil _)
  | cons row rest ih =>
    intro db c u i is hmem
    rcases List.mem_cons.mp hmem with heq | htail
    · subst heq
      exact deleteLoop_upd_isSome rest _ _ _
    · cases row with
      | nil => exact ih db c u i is htail
      | cons j js => exact ih _ _ _ i is htail

/-- C10: for a non-empty selection of rows whose first column is an existing
snapshot id, `delete_selected_snapshots` removes every referenced snapshot
from the database yet reports `"Successfully deleted 0 snapshot(s)"` — the
counter looks for the prefix `"Successfully"` while `delete_snapshot` returns
`"Snapshot {id} deleted successfully"`. -/
theorem claim10_thm (db : DbUtils.SnapDB) (selected : List (List Int))
    (hne : selected ≠ [])
    (hpos : ∀ r ∈ db.rows, 0 < r.id)
    (hsel : ∀ row ∈ selected, ∃ i is, row = i :: is ∧ ∃ r ∈ db.rows, (r.id : Int) = i) :
    (DbUtils.delete_selected_snapshots db selected).1 =
      "Successfully deleted 0 snapshot(s)" ∧
    ∀ row ∈ selected, ∀ i is, row = i :: is →
      ∀ r ∈ (DbUtils.delete_selected_snapshots db selected).2.1.rows, (r.id : Int) ≠ i := by
  have hrowpos : ∀ row ∈ selected, ∀ i is, row = i :: is → 0 < i := by
    intro row hrow i is heq
    obtain ⟨i2, is2, heq2, rr, hrr, hid⟩ := hsel row hrow
    rw [heq] at heq2
    cases heq2
    have := hpos rr hrr
    omega
  have hempty : selected.isEmpty = false := by
    cases selected with
    | nil => exact absurd rfl hne
    | cons a b => rfl
  obtain ⟨row0, rest0, hsel0⟩ := List.exists_cons_of_ne_nil hne
  obtain ⟨i0, is0, heq0, _⟩ := hsel row0 (by rw [hsel0]; exact List.mem_cons_self _ _)
  have hsome : (DbUtils.deleteLoop db selected 0 none).2.2.isSome = true := by
    apply deleteLoop_upd_start selected db 0 none i0 is0
    rw [hsel0, ← heq0]
    exact List.mem_cons_self _ _
  obtain ⟨t, ht⟩ := Option.isSome_iff_exists.mp hsome
  have hcount : (DbUtils.deleteLoop db selected 0 none).2.1 = 0 :=
    deleteLoop_count selected db 0 none
  constructor
  · simp only [DbUtils.delete_selected_snapshots, hempty, Bool.false_eq_true, if_false, ht,
      hcount]
    rfl
  · intro row hrow i is heq r hr
    have hp : 0 < i := hrowpos row hrow i is heq
    have hmem : (i :: is) ∈ selected := by rw [← heq]; exact hrow
    apply deleteLoop_kills selected db 0 none i is hmem hp r
    simp only [DbUtils.delete_selected_snapshots, hempty, Bool.false_eq_true, if_false,
      ht] at hr
    exact hr

/-- A one-row store for the C10 and C7 witnesses. -/
def dbRow10 : DbUtils.SnapRow := ⟨1, "n", "u", "s", "m", "c", "i", "", "r", "f", 3, "g"⟩

def dbC10 : DbUtils.SnapDB := ⟨2, [dbRow10]⟩

/-- C10 witness: selecting the single existing snapshot (id 1) deletes it but
the status still reports zero deletions. -/
theorem claim10_witness :
    (DbUtils.delete_selected_snapshots dbC10 [[1]]).1 =
      "Successfully deleted 0 snapshot(s)" ∧
    ∀ r ∈ (DbUtils.delete_selected_snapshots dbC10 [[1]]).2.1.rows, (r.id : Int) ≠ 1 := by
  have h := claim10_thm dbC10 [[1]] (by decide) (by decide)
    (by
      intro row hrow
      rcases List.mem_singleton.mp hrow with rfl
      exact ⟨1, [], rfl, dbRow10, by decide, by decide⟩)
  exact ⟨h.1, fun r hr => h.2 [1] (List.mem_singleton.mpr rfl) 1 [] rfl r hr⟩

/-! ## Claim C7 -/

/-- The snapshot dict of a stored row whose `thinking` field is empty. -/
def snapC7 : List (String × DbUtils.DBVal) := DbUtils.rowDict dbRow10

/-- C7 counterexample: with the "Thinking" aspect selected and an empty
`thinking` field, the labeled block is still emitted (with empty body) — it
is not omitted. -/
theorem claim7_cex :
    AppV1.pyGetStr snapC7 "thinking" = "" ∧
    AppV1.buildContent ["Thinking"] snapC7 = "=== Thinking ===\n\n\n" ∧
    AppV1.buildContent ["Thinking"] snapC7 ≠ "" := by
  decide

/-- C7 (amended): for resolvable ids, `evaluate_snapshots` builds each
snapshot's content by concatenating — in the order given by `aspects` — the
labeled block of every selected recognized aspect, passes both contents into
the judge prompt, and omits a block only when its aspect is not selected (or
is not one of the three recognized labels); an empty field still contributes
its labeled block with empty body. -/
theorem claim7_amended :
    (∀ (db : DbUtils.SnapDB) (provider : String → String) (id1 id2 : Int)
        (aspects metrics : List String) (cc : String)
        (snap1 snap2 : List (String × DbUtils.DBVal)),
        id1 ≠ 0 → id2 ≠ 0 →
        DbUtils.get_snapshot_by_id db id1 = some snap1 →
        DbUtils.get_snapshot_by_id db id2 = some snap2 →
        AppV1.evaluate_snapshots db provider id1 id2 aspects metrics cc =
          (AppV1.parseScores metrics (provider (AppV1.create_evaluation_prompt
              (AppV1.buildContent aspects snap1) (AppV1.buildContent aspects snap2)
              metrics cc)),
           provider (AppV1.create_evaluation_prompt
              (AppV1.buildContent aspects snap1) (AppV1.buildContent aspects snap2)
              metrics cc))) ∧
    (∀ (snap : List (String × DbUtils.DBVal)) (a : String) (rest : List String),
        AppV1.buildContent (a :: rest) snap =
          AppV1.blockFor snap a ++ AppV1.buildContent rest snap) ∧
    (∀ (snap : List (String × DbUtils.DBVal)) (a : String),
        a ≠ "Thinking" → a ≠ "Reflection" → a ≠ "Final Output" →
        AppV1.blockFor snap a = "") ∧
    (∀ snap : List (String × DbUtils.DBVal),
        AppV1.blockFor snap "Thinking" =
          "=== Thinking ===\n" ++ AppV1.pyGetStr snap "thinking" ++ "\n\n") := by
  refine ⟨?_, ?_, ?_, ?_⟩
  · intro db provider id1 id2 aspects metrics cc snap1 snap2 h1 h2 hg1 hg2
    have hb1 : (id1 == 0) = false := beq_eq_false_iff_ne.mpr h1
    have hb2 : (id2 == 0) = false := beq_eq_false_iff_ne.mpr h2
    simp [AppV1.evaluate_snapshots, hb1, hb2, hg1, hg2]
  · intro snap a rest
    show AppV1.buildContentAux snap rest ("" ++ AppV1.blockFor snap a) =
      AppV1.blockFor snap a ++ AppV1.buildContentAux snap rest ""
    rw [buildContentAux_acc]
    rfl
  · intro snap a ha hb hc
    simp [AppV1.blockFor, ha, hb, hc]
  · intro snap
    rfl

/-- C7 witness: the amended evaluate equation at the one-row store, both ids
resolving to the stored snapshot, a constant judge response. -/
theorem claim7_witness :
    AppV1.evaluate_snapshots dbC10 (fun _ => "verdict") 1 1 ["Thinking"] ["Clarity"] "cc" =
      (AppV1.parseScores ["Clarity"] ((fun _ => "verdict") (AppV1.create_evaluation_prompt
          (AppV1.buildContent ["Thinking"] snapC7) (AppV1.buildContent ["Thinking"] snapC7)
          ["Clarity"] "cc")),
       (fun _ => "verdict") (AppV1.create_evaluation_prompt
          (AppV1.buildContent ["Thinking"] snapC7) (AppV1.buildContent ["Thinking"] snapC7)
          ["Clarity"] "cc")) :=
  claim7_amended.1 dbC10 (fun _ => "verdict") 1 1 ["Thinking"] ["Clarity"] "cc"
    snapC7 snapC7 (by decide) (by decide) (by decide) (by decide)

/-! ## Claim C8 -/

theorem mem_dictInsert {l : List (String × Nat)} {key : String} {val : Nat}
    {k : String} {v : Nat} (h : (k, v) ∈ AppV1.dictInsert l key val) :
    (k, v) ∈ l ∨ (k = key ∧ v = val) := by
  unfold AppV1.dictInsert at h
  split at h
  · obtain ⟨p, hp, hpe⟩ := List.mem_map.mp h
    by_cases hk : p.1 == key
    · simp only [hk, if_pos] at hpe
      right
      cases hpe
      exact ⟨rfl, rfl⟩
    · simp only [hk, Bool.false_eq_true, if_false] at hpe
      left
      exact hpe ▸ hp
  · rcases List.mem_append.mp h with hl | hr
    · exact Or.inl hl
    · right
      rcases List.mem_singleton.mp hr with heq
      exact ⟨congrArg Prod.fst heq, congrArg Prod.snd heq⟩

theorem parseScoresAux_mem :
    ∀ (ms : List String) (resp : String) (scores : List (String × Nat))
      (k : String) (v : Nat),
      (k, v) ∈ AppV1.parseScoresAux ms resp scores →
      (k, v) ∈ scores ∨ AppV1.searchScore k.data resp.data = some v := by
  intro ms
  induction ms with
  | nil => intro resp scores k v h; exact Or.inl h
  | cons m rest ih =>
    intro resp scores k v h
    unfold AppV1.parseScoresAux at h
    cases hs : AppV1.searchScore (AppV1.metricName m).data resp.data with
    | none =>
      rw [hs] at h
      exact ih resp scores k v h
    | some v0 =>
      rw [hs] at h
      rcases ih resp _ k v h with hin | hfound
      · rcases mem_dictInsert hin with hold | ⟨hk, hv⟩
        · exact Or.inl hold
        · subst hk; subst hv
          exact Or.inr hs
      · exact Or.inr hfound

/-- C8: score parsing is best-effort and total: a verdict containing
`"Clarity: 8/10"` parses to `{"Clarity": 8}`; every entry of the scores map
comes from a successful pattern search (so an unmatched metric is simply
absent); a failed search for a metric leaves the map empty. -/
theorem claim8_thm :
    AppV1.parseScores ["Clarity"] "Some verdict. Clarity: 8/10. Done." =
      [("Clarity", 8)] ∧
    (∀ (metrics : List String) (verdict : String) (k : String) (v : Nat),
        (k, v) ∈ AppV1.parseScores metrics verdict →
        AppV1.searchScore k.data verdict.data = some v) ∧
    (∀ (verdict metric : String),
        AppV1.searchScore (AppV1.metricName metric).data verdict.data = none →
        AppV1.parseScores [metric] verdict = []) := by
  refine ⟨by decide, ?_, ?_⟩
  · intro metrics verdict k v h
    rcases parseScoresAux_mem metrics verdict [] k v h with hin | hfound
    · exact absurd hin (List.not_mem_nil _)
    · exact hfound
  · intro verdict metric h
    simp [AppV1.parseScores, AppV1.parseScoresAux, h]

/-- C8 witness: the membership-to-search direction applied at the concrete
"Clarity" verdict, and the omitted-metric case at a verdict with no match. -/
theorem claim8_witness :
    AppV1.searchScore "Clarity".data "Some verdict. Clarity: 8/10. Done.".data = some 8 ∧
    AppV1.parseScores ["Clarity"] "no scores anywhere" = [] := by
  constructor
  · exact claim8_thm.2.1 ["Clarity"] "Some verdict. Clarity: 8/10. Done." "Clarity" 8
      (by decide)
  · exact claim8_thm.2.2 "no scores anywhere" "Clarity" (by decide)

/-- C9 witness: the no-closing-tag case of the amended statement at a
concrete string. -/
theorem claim9_witness :
    extractThinking "no closing tag here" = "no closing tag here" :=
  claim9_amended.2.2 "no closing tag here" (by decide)
